import Mathlib

/-!
Shallow embedding of the connection lifecycle state machine and the datagram
flow of the gm-quic repository (src/qconnection/src/connection.rs and
src/qunreliable/src/flow.rs), together with theorems settling the behavioural
claims about them.

Conventions of the embedding:
- machine integers and durations are modelled as `Nat` (no overflow is
  relevant to any claim);
- fallible Rust code is modelled with `Option`/`Except`; a Rust panic
  (an `unwrap()` on `None`, an `unreachable` branch, a failed assertion)
  is modelled as the `none` value of an outer `Option`;
- interior mutability (`&self` methods that mutate through a lock) is
  modelled by explicit state passing: the method returns the updated value;
- calls of `Router::remove` are modelled by returning the list of connection
  IDs passed to `remove`, in call order.
-/

namespace GmQuic

/-- A QUIC connection ID, an opaque identifier; modelled by a number. -/
structure ConnectionId where
  id : Nat
deriving DecidableEq, Repr

/-- The error kinds used by the embedded code paths (qbase::error::ErrorKind). -/
inductive ErrorKind where
  | Application
  | NoViablePath
  | ProtocolViolation
deriving DecidableEq, Repr

/-- A connection error: a kind together with a human-readable reason
(qbase::error::Error, constructed through `with_default_fty`). -/
structure Error where
  kind : ErrorKind
  reason : String
deriving DecidableEq, Repr

/-- Models qbase::error::Error::with_default_fty (kind and reason, with the
default frame-type tag, which no claim observes). -/
def Error.with_default_fty (kind : ErrorKind) (reason : String) : Error :=
  ⟨kind, reason⟩

/-- The kind tag of the shared connection-error signal
(crate::error::ConnErrorKind). -/
inductive ConnErrorKind where
  | Application
  | Transport
  | CcfReceived
  | NoViablePath
deriving DecidableEq, Repr

/-- Modelled from the spec: the shared connection-error signal (crate::error
is not under src/). The spec requires first-write-wins semantics from this
primitive. -/
structure ConnError where
  signal : Option (Error × ConnErrorKind)
deriving DecidableEq, Repr

/-- Modelled from the spec: recording an Application-kind error on the
signal; a value already present wins. -/
def ConnError.set_app_error (c : ConnError) (e : Error) : ConnError :=
  ⟨some (c.signal.getD (e, ConnErrorKind.Application))⟩

/-- Byte payloads, modelled as lists of byte values. -/
abbrev Bytes := List Nat

/-- Modelled from the spec: the raw datagram reader (qunreliable's reader.rs
is not under src/): it holds the maximum receivable datagram-frame size it
was constructed with and the queue of inbound payloads accumulated for the
application. -/
structure RawDatagramReader where
  max_datagram_frame_size : Nat
  queue : List Bytes
deriving DecidableEq, Repr

/-- Construction of a raw reader with a given size bound and no pending
payloads. -/
def RawDatagramReader.new (size : Nat) : RawDatagramReader :=
  ⟨size, []⟩

/-- Modelled from the spec: the raw datagram writer (qunreliable's writer.rs
is not under src/): it holds the negotiated ceiling on sendable
datagram-frame sizes and the queue of outbound payloads. -/
structure RawDatagramWriter where
  remote_max_datagram_frame_size : Nat
  queue : List Bytes
deriving DecidableEq, Repr

/-- Construction of a raw writer with a given ceiling and an empty queue. -/
def RawDatagramWriter.new (size : Nat) : RawDatagramWriter :=
  ⟨size, []⟩

/-- The shared reader cell: `Arc(Mutex(Ok(reader)))` in flow.rs; once the
connection errors the cell holds the error instead. -/
abbrev DatagramReader := Except Error RawDatagramReader

/-- The shared writer cell: `Arc(Mutex(Ok(writer)))` in flow.rs. -/
abbrev DatagramWriter := Except Error RawDatagramWriter

/-- Modelled from the spec: DatagramReader::on_conn_error (reader.rs is not
under src/; flow.rs documents that if the flow is already errored the new
error is ignored): the first error replaces the live reader and later errors
are ignored. -/
def DatagramReader.on_conn_error (r : DatagramReader) (e : Error) : DatagramReader :=
  match r with
  | Except.ok _ => Except.error e
  | Except.error e0 => Except.error e0

/-- Modelled from the spec: DatagramWriter::on_conn_error (writer.rs is not
under src/): first error wins, as for the reader. -/
def DatagramWriter.on_conn_error (w : DatagramWriter) (e : Error) : DatagramWriter :=
  match w with
  | Except.ok _ => Except.error e
  | Except.error e0 => Except.error e0

/-- Modelled from the spec: a read poll on the datagram reader (reader.rs is
not under src/): once the flow is errored every read fails with the stored
error; otherwise it yields the front of the inbound queue when present. -/
def DatagramReader.poll_read (r : DatagramReader) : Except Error (Option Bytes × RawDatagramReader) :=
  match r with
  | Except.error e => Except.error e
  | Except.ok raw =>
    match raw.queue with
    | [] => Except.ok (none, raw)
    | b :: rest => Except.ok (some b, ⟨raw.max_datagram_frame_size, rest⟩)

/-- Modelled from the spec: a write on the datagram writer (writer.rs is not
under src/): once the flow is errored every write fails with the stored
error; otherwise the payload is queued. -/
def DatagramWriter.send (w : DatagramWriter) (b : Bytes) : Except Error Unit × DatagramWriter :=
  match w with
  | Except.error e => (Except.error e, Except.error e)
  | Except.ok raw =>
    (Except.ok (), Except.ok ⟨raw.remote_max_datagram_frame_size, raw.queue ++ [b]⟩)

/-- The protocol-violation error produced when the negotiated datagram size
would shrink. Modelled from the spec ("fails with a protocol-violation
error"); writer.rs, which holds the exact reason text, is not under src/. -/
def datagramSizeShrinkError : Error :=
  Error.with_default_fty ErrorKind.ProtocolViolation
    "the new remote max_datagram_frame_size is smaller than the previous one"

/-- Modelled from the spec: DatagramWriter::update_remote_max_datagram_frame_size
(writer.rs is not under src/): fails with a protocol-violation error when the
new size is smaller than the previously negotiated value, leaving the value
unchanged; otherwise updates the writer's ceiling. On an already-errored flow
the stored error is returned unchanged. -/
def DatagramWriter.update_remote_max_datagram_frame_size (w : DatagramWriter)
    (new_size : Nat) : Except Error Unit × DatagramWriter :=
  match w with
  | Except.error e => (Except.error e, Except.error e)
  | Except.ok raw =>
    if new_size < raw.remote_max_datagram_frame_size then
      (Except.error datagramSizeShrinkError, Except.ok raw)
    else
      (Except.ok (), Except.ok ⟨new_size, raw.queue⟩)

/-- The datagram flow of flow.rs: the shared reader/writer pair
(RawDatagramFlow behind the lock). -/
structure DatagramFlow where
  reader : DatagramReader
  writer : DatagramWriter

/-- RawDatagramFlow::new in flow.rs: the reader is built from the remote
size argument and the writer from the local size argument, both wrapped in
live (`Ok`) cells. -/
def DatagramFlow.new (local_max_datagram_frame_size remote_max_datagram_frame_size : Nat) :
    DatagramFlow :=
  ⟨Except.ok (RawDatagramReader.new remote_max_datagram_frame_size),
   Except.ok (RawDatagramWriter.new local_max_datagram_frame_size)⟩

/-- DatagramFlow::update_remote_max_datagram_frame_size in flow.rs: delegates
to the writer. -/
def DatagramFlow.update_remote_max_datagram_frame_size (f : DatagramFlow)
    (new_size : Nat) : Except Error Unit × DatagramFlow :=
  let res := f.writer.update_remote_max_datagram_frame_size new_size
  (res.1, ⟨f.reader, res.2⟩)

/-- DatagramFlow::on_conn_error in flow.rs: forwards the error to both the
reader and the writer. -/
def DatagramFlow.on_conn_error (f : DatagramFlow) (e : Error) : DatagramFlow :=
  ⟨f.reader.on_conn_error e, f.writer.on_conn_error e⟩

/-- Modelled from the spec: the flow controller handle (not under src/); its
only contract used here is the on_conn_error notification, recorded
first-wins. -/
structure FlowController where
  conn_error : Option Error
deriving DecidableEq, Repr

/-- Modelled from the spec: notification of the flow controller, exactly
once (Invariant I4). -/
def FlowController.on_conn_error (f : FlowController) (e : Error) : FlowController :=
  ⟨some (f.conn_error.getD e)⟩

/-- Modelled from the spec: the stream multiplexer handle (not under src/);
only its on_conn_error contract is used here. -/
structure DataStreams where
  conn_error : Option Error
deriving DecidableEq, Repr

/-- Modelled from the spec: notification of the stream multiplexer, exactly
once (Invariant I4). -/
def DataStreams.on_conn_error (s : DataStreams) (e : Error) : DataStreams :=
  ⟨some (s.conn_error.getD e)⟩

/-- Modelled from the spec: the asynchronously readable remote parameter
set; a claim only passes this handle around, so it is an opaque token. -/
structure ArcRemoteParameters where
  handle : Nat
deriving DecidableEq, Repr

/-- Modelled from the spec: the negotiated-parameters subsystem (not under
src/): the remote parameter handle plus the on_conn_error notification. -/
structure ArcParameters where
  remote : ArcRemoteParameters
  conn_error : Option Error
deriving DecidableEq, Repr

/-- Modelled from the spec: notification of the parameters subsystem,
exactly once (Invariant I4). -/
def ArcParameters.on_conn_error (p : ArcParameters) (e : Error) : ArcParameters :=
  ⟨p.remote, some (p.conn_error.getD e)⟩

/-- Modelled from the spec: the TLS session handle; `abort()` stops the
handshake. -/
structure ArcTlsSession where
  aborted : Bool
deriving DecidableEq, Repr

/-- TLS abort: marks the session aborted. -/
def ArcTlsSession.abort (_t : ArcTlsSession) : ArcTlsSession :=
  ⟨true⟩

/-- The waiter-notification handle (tokio Notify); `notify_waiters` wakes
tasks and carries no state observed by any claim. -/
inductive Notify where
  | mk
deriving DecidableEq, Repr

/-- The encryption epochs (qrecovery::space::Epoch). -/
inductive Epoch where
  | Initial
  | Handshake
  | Data
deriving DecidableEq, Repr

/-- A duration, in abstract time units. -/
abbrev Duration := Nat

/-- A per-path congestion controller: only its probe-timeout query is
consumed by this core. -/
structure CongestionController where
  pto_time : Epoch → Duration

/-- A network path: owns its congestion controller. -/
structure Path where
  cc : CongestionController

/-- A background packet-receive task handle (JoinHandle of RcvdPackets),
opaque to the state machine. -/
structure RcvdPacketsHandle where
  handle : Nat
deriving DecidableEq, Repr

/-- Modelled from the spec: the local half of the connection-ID registry
(qbase::cid is not under src/): `active_cids` lists the locally-issued IDs
currently registered in the global router. -/
structure ArcLocalCids where
  active_cids : List ConnectionId
deriving DecidableEq, Repr

/-- The connection-ID registry; only the local half is consumed by the
embedded code paths. -/
structure CidRegistry where
  localCids : ArcLocalCids
deriving DecidableEq, Repr

/-- Modelled from the spec: the handshake-space crypto context of the Active
connection (qconnection's scope module is not under src/): its conversion to
a closing scope succeeds exactly when the space was not yet discarded. -/
structure HandshakeScope where
  discarded : Bool
deriving DecidableEq, Repr

/-- The retained handshake-space context of a Closing connection; its
internals are outside the embedded core. -/
inductive ClosingHandshakeScope where
  | mk
deriving DecidableEq, Repr

/-- The `try_into().ok()` conversion on the handshake space: salvages the
context unless the space was already discarded. -/
def HandshakeScope.try_into_ok (s : HandshakeScope) : Option ClosingHandshakeScope :=
  if s.discarded then none else some ⟨⟩

/-- Modelled from the spec: the 1-RTT data-space crypto context of the
Active connection (scope module not under src/). -/
structure DataScope where
  discarded : Bool
deriving DecidableEq, Repr

/-- The retained 1-RTT data-space context of a Closing connection. -/
inductive ClosingOneRttScope where
  | mk
deriving DecidableEq, Repr

/-- The `try_into().ok()` conversion on the data space: salvages the context
unless the space was already discarded. -/
def DataScope.try_into_ok (s : DataScope) : Option ClosingOneRttScope :=
  if s.discarded then none else some ⟨⟩

/-- The Active ("raw") connection: the subsystem set consumed by the
embedded transitions of connection.rs (fields unused by any claim, such as
the token registry, are omitted). -/
structure RawConnection where
  datagrams : DatagramFlow
  flow_ctrl : FlowController
  streams : DataStreams
  params : ArcParameters
  tls_session : ArcTlsSession
  notify : Notify
  hs : HandshakeScope
  data : DataScope
  join_handles : List RcvdPacketsHandle
  pathes : List Path
  cid_registry : CidRegistry
  error : ConnError

/-- Modelled from the spec: the Closing connection (closing.rs is not under
src/): the immutable error, the owned connection-ID set, and the optionally
retained crypto contexts. -/
structure ClosingConnection where
  error : Error
  local_cids : List ConnectionId
  hs : Option ClosingHandshakeScope
  one_rtt : Option ClosingOneRttScope
deriving DecidableEq, Repr

/-- ClosingConnection::new, with the argument order of the call site in
connection.rs. -/
def ClosingConnection.new (error : Error) (local_cids : List ConnectionId)
    (hs : Option ClosingHandshakeScope) (one_rtt : Option ClosingOneRttScope) :
    ClosingConnection :=
  ⟨error, local_cids, hs, one_rtt⟩

/-- Modelled from the spec: the Draining connection (draining.rs is not
under src/): the owned connection-ID set and the terminal error. -/
structure DrainingConnection where
  local_cids : List ConnectionId
  error : Error
deriving DecidableEq, Repr

/-- DrainingConnection::new, with the argument order of the call site in
connection.rs. -/
def DrainingConnection.new (local_cids : List ConnectionId) (error : Error) :
    DrainingConnection :=
  ⟨local_cids, error⟩

/-- The connection state held by the single mutually-exclusive holder
(enum ConnState in connection.rs). -/
inductive ConnState where
  | Raw (conn : RawConnection)
  | Closing (conn : ClosingConnection)
  | Draining (conn : DrainingConnection)
  | Closed

/-- Whether the holder contains the Active (Raw) state
(`matches!(state, Raw(..))`). -/
def ConnState.isRaw : ConnState → Bool
  | ConnState.Raw _ => true
  | _ => false

/-- The connection error stored in a terminal-path state (the error field of
Closing and Draining); Raw and Closed store none. -/
def ConnState.storedError : ConnState → Option Error
  | ConnState.Closing c => some c.error
  | ConnState.Draining d => some d.error
  | _ => none

/-- The broadcast block repeated at lines 73-78, 115-120 and 140-145 of
connection.rs: every subsystem is notified of the error, the TLS session is
aborted, and the waiters are notified (the last is stateless here). -/
def RawConnection.broadcastConnError (raw : RawConnection) (error : Error) :
    RawConnection :=
  { raw with
    datagrams := raw.datagrams.on_conn_error error
    flow_ctrl := raw.flow_ctrl.on_conn_error error
    streams := raw.streams.on_conn_error error
    params := raw.params.on_conn_error error
    tls_session := raw.tls_session.abort }

/-- ConnState::should_enter_close (connection.rs lines 62-105). The outer
`Option` is `none` exactly when the Rust code panics (the `unwrap` of the
maximum over an empty path set); the inner `Option` is the function's Rust
return value (none when the state was already Closing/Draining/Closed, in
which case the replaced state is restored unchanged). -/
def ConnState.should_enter_close (s : ConnState) (error : Error) :
    Option (ConnState × Option (List RcvdPacketsHandle × Duration)) :=
  match s with
  | ConnState.Raw raw_conn =>
    let raw_conn := raw_conn.broadcastConnError error
    let hs := raw_conn.hs.try_into_ok
    let one_rtt := raw_conn.data.try_into_ok
    let recv_packets := raw_conn.join_handles
    match (raw_conn.pathes.map (fun path => path.cc.pto_time Epoch.Data)).max? with
    | none => none
    | some pto_time =>
      let next : ConnState :=
        match hs, one_rtt with
        | none, none =>
          ConnState.Draining
            (DrainingConnection.new raw_conn.cid_registry.localCids.active_cids error)
        | hs, one_rtt =>
          ConnState.Closing
            (ClosingConnection.new error raw_conn.cid_registry.localCids.active_cids hs one_rtt)
      some (next, some (recv_packets, pto_time))
  | s => some (s, none)

/-- ConnState::enter_draining (connection.rs lines 107-132): same broadcast,
always transitions Raw to Draining; `none` for the panic on an empty path
set, inner `none` when the state was not Raw (restored unchanged). -/
def ConnState.enter_draining (s : ConnState) (error : Error) :
    Option (ConnState × Option Duration) :=
  match s with
  | ConnState.Raw raw_conn =>
    let raw_conn := raw_conn.broadcastConnError error
    let next := ConnState.Draining
      (DrainingConnection.new raw_conn.cid_registry.localCids.active_cids error)
    match (raw_conn.pathes.map (fun path => path.cc.pto_time Epoch.Data)).max? with
    | none => none
    | some pto_time => some (next, some pto_time)
  | s => some (s, none)

/-- ConnState::no_vaiable_path (connection.rs lines 134-149): from Raw it
broadcasts a NoViablePath error and removes every active local CID from the
router; from any other state it returns early — but the `mem::replace` with
`Closed` is deliberately not undone ("no need to reset the state to conn"),
so the holder is left `Closed` and nothing is removed. The second component
is the list of IDs passed to `Router::remove`, in order. -/
def ConnState.no_vaiable_path (s : ConnState) : ConnState × List ConnectionId :=
  match s with
  | ConnState.Raw raw_conn =>
    let error := Error.with_default_fty ErrorKind.NoViablePath "No viable path"
    let raw_conn := raw_conn.broadcastConnError error
    (ConnState.Closed, raw_conn.cid_registry.localCids.active_cids)
  | _ => (ConnState.Closed, [])

/-- ConnState::die (connection.rs lines 151-162): from Closing or Draining
it removes every owned CID from the router and leaves the holder `Closed`;
from Raw or Closed the code hits `unreachable` and panics, modelled as
`none`. The second component is the list of IDs passed to `Router::remove`. -/
def ConnState.die (s : ConnState) : Option (ConnState × List ConnectionId) :=
  match s with
  | ConnState.Closing conn => some (ConnState.Closed, conn.local_cids)
  | ConnState.Draining conn => some (ConnState.Closed, conn.local_cids)
  | ConnState.Raw _ => none
  | ConnState.Closed => none

/-- The follow-up work spawned by ArcConnection::should_enter_closing after a
successful transition: either the closing race task (carrying the computed
probe timeout; forwarding tasks for the receive handles are spawned alongside
it and carry no state observed by a claim), or an immediate draining timer
with the given budget, or nothing. -/
inductive ClosingFollowUp where
  | closingRace (pto : Duration)
  | drainNow (budget : Duration)
  | nothing
deriving DecidableEq, Repr

/-- The deadline of the closing race task (connection.rs line 427:
`let time = pto * 3`). -/
def closing_wait_deadline (pto : Duration) : Duration :=
  pto * 3

/-- The resolution of the closing race task. -/
inductive RaceOutcome where
  | drainingCont (remaining : Duration)
  | dieNow
deriving DecidableEq, Repr

/-- The closing race task body (connection.rs lines 425-432): it races the
deadline `pto * 3` against the arrival of the peer's close confirmation;
`ccf_elapsed` is the elapsed time at which the confirmation future completes
(`none` when it never does). Completion before the deadline continues into
draining with the remaining budget `pto * 3 - elapsed`; otherwise the
connection dies. -/
def closing_race (pto : Duration) (ccf_elapsed : Option Duration) : RaceOutcome :=
  match ccf_elapsed with
  | some elapsed =>
    if elapsed < closing_wait_deadline pto then
      RaceOutcome.drainingCont (pto * 3 - elapsed)
    else
      RaceOutcome.dieNow
  | none => RaceOutcome.dieNow

/-- ArcConnection::draining (connection.rs lines 456-466): asserts that the
holder contains Draining, then spawns a timer that sleeps for `remaining` and
dies. `none` models the assertion failure (a panic); `some remaining` the
spawned timer's budget. The holder itself is not modified. -/
def ArcConnection.draining (s : ConnState) (remaining : Duration) : Option Duration :=
  match s with
  | ConnState.Draining _ => some remaining
  | _ => none

/-- ArcConnection::should_enter_closing (connection.rs lines 399-441): a
no-op when the holder is not Raw; otherwise runs
ConnState::should_enter_close and dispatches on the new state: Closing spawns
the forwarding tasks and the closing race task, Draining drops the handles
and starts draining with budget `pto * 3`. The outer `Option` is `none` when
the code panics (the pto `unwrap`, or the `unreachable` arm). -/
def ArcConnection.should_enter_closing (s : ConnState) (error : Error) :
    Option (ConnState × ClosingFollowUp) :=
  if s.isRaw = false then
    some (s, ClosingFollowUp.nothing)
  else
    match s.should_enter_close error with
    | none => none
    | some (s', none) => some (s', ClosingFollowUp.nothing)
    | some (s', some (_handles, pto)) =>
      match s' with
      | ConnState.Closing _ => some (s', ClosingFollowUp.closingRace pto)
      | ConnState.Draining _ => some (s', ClosingFollowUp.drainNow (pto * 3))
      | _ => none

/-- ArcConnection::enter_draining (connection.rs lines 443-452): runs
ConnState::enter_draining; when it yields a pto the draining timer is
started with budget `pto * 3`. -/
def ArcConnection.enter_draining (s : ConnState) (error : Error) :
    Option (ConnState × Option Duration) :=
  match s.enter_draining error with
  | none => none
  | some (s', none) => some (s', none)
  | some (s', some pto) => some (s', some (pto * 3))

/-- ArcConnection::close (connection.rs lines 382-391): only from Raw it
builds an Application-kind error from the message, records it on the shared
error signal, and invokes should_enter_closing; otherwise nothing happens. -/
def ArcConnection.close (s : ConnState) (msg : String) :
    Option (ConnState × ClosingFollowUp) :=
  match s with
  | ConnState.Raw conn =>
    let error := Error.with_default_fty ErrorKind.Application msg
    let conn := { conn with error := conn.error.set_app_error error }
    ArcConnection.should_enter_closing (ConnState.Raw conn) error
  | s => some (s, ClosingFollowUp.nothing)

/-- ArcConnection::is_active (connection.rs lines 500-503): the negation of
`matches!(state, ConnState::Raw(..))`, exactly as written in the source. -/
def ArcConnection.is_active (s : ConnState) : Bool :=
  !s.isRaw

/-- A close-triggering event: an application `close` call or a
transport-error delivery, which the monitoring task dispatches to
should_enter_closing (connection.rs line 520). -/
inductive CloseEvent where
  | appClose (msg : String)
  | transportError (e : Error)

/-- One close/error event applied to the state holder. -/
def ConnState.closeEventStep (s : ConnState) (ev : CloseEvent) :
    Option (ConnState × ClosingFollowUp) :=
  match ev with
  | CloseEvent.appClose msg => ArcConnection.close s msg
  | CloseEvent.transportError e => ArcConnection.should_enter_closing s e

/-- A sequence of close/error events applied to the state holder; a panic
(`none`) aborts the run. -/
def ConnState.runCloseEvents (s : ConnState) : List CloseEvent → Option ConnState
  | [] => some s
  | ev :: evs =>
    match s.closeEventStep ev with
    | none => none
    | some (s', _) => ConnState.runCloseEvents s' evs

/-- The state-inspection step of ArcConnection::open_bi_stream
(connection.rs lines 252-266): under the lock it snapshots the remote
parameters, the stream multiplexer, and the error signal from a Raw state,
and fails with the state's stored error from Closing or Draining. The
`unreachable` arm for Closed is a panic (`none`). -/
def ArcConnection.open_bi_stream_guard (s : ConnState) :
    Option (Except Error (ArcRemoteParameters × DataStreams × ConnError)) :=
  match s with
  | ConnState.Raw raw => some (Except.ok (raw.params.remote, raw.streams, raw.error))
  | ConnState.Closing closing => some (Except.error closing.error)
  | ConnState.Draining draining => some (Except.error draining.error)
  | ConnState.Closed => none

/-- The state-inspection step of ArcConnection::open_uni_stream
(connection.rs lines 278-292), identical in shape to the bidirectional
case. -/
def ArcConnection.open_uni_stream_guard (s : ConnState) :
    Option (Except Error (ArcRemoteParameters × DataStreams × ConnError)) :=
  match s with
  | ConnState.Raw raw => some (Except.ok (raw.params.remote, raw.streams, raw.error))
  | ConnState.Closing closing => some (Except.error closing.error)
  | ConnState.Draining draining => some (Except.error draining.error)
  | ConnState.Closed => none

/-- The state-inspection step of ArcConnection::accept_bi_stream
(connection.rs lines 304-318). -/
def ArcConnection.accept_bi_stream_guard (s : ConnState) :
    Option (Except Error (ArcRemoteParameters × DataStreams × ConnError)) :=
  match s with
  | ConnState.Raw raw => some (Except.ok (raw.params.remote, raw.streams, raw.error))
  | ConnState.Closing closing => some (Except.error closing.error)
  | ConnState.Draining draining => some (Except.error draining.error)
  | ConnState.Closed => none

/-- The state-inspection step of ArcConnection::accept_uni_stream
(connection.rs lines 330-340): snapshots only the streams and the error
signal. -/
def ArcConnection.accept_uni_stream_guard (s : ConnState) :
    Option (Except Error (DataStreams × ConnError)) :=
  match s with
  | ConnState.Raw raw => some (Except.ok (raw.streams, raw.error))
  | ConnState.Closing closing => some (Except.error closing.error)
  | ConnState.Draining draining => some (Except.error draining.error)
  | ConnState.Closed => none

/-- Modelled from the spec: DatagramFlow's reader acquisition used by
ArcConnection::datagram_reader (the method is outside flow.rs): it yields
the shared reader handle, or the stored error once the flow is errored. -/
def DatagramFlow.acquire_reader (f : DatagramFlow) : Except Error RawDatagramReader :=
  f.reader

/-- ArcConnection::datagram_reader (connection.rs lines 349-358): from Raw
it delegates to the datagram flow's reader acquisition; from Closing or
Draining it fails with the stored error; Closed is unreachable (panic). -/
def ArcConnection.datagram_reader (s : ConnState) :
    Option (Except Error RawDatagramReader) :=
  match s with
  | ConnState.Raw raw => some (raw.datagrams.acquire_reader)
  | ConnState.Closing closing => some (Except.error closing.error)
  | ConnState.Draining draining => some (Except.error draining.error)
  | ConnState.Closed => none

/-- The state-inspection step of ArcConnection::datagram_writer
(connection.rs lines 361-371): snapshots the remote parameters and the
datagram flow. -/
def ArcConnection.datagram_writer_guard (s : ConnState) :
    Option (Except Error (ArcRemoteParameters × DatagramFlow)) :=
  match s with
  | ConnState.Raw raw => some (Except.ok (raw.params.remote, raw.datagrams))
  | ConnState.Closing closing => some (Except.error closing.error)
  | ConnState.Draining draining => some (Except.error draining.error)
  | ConnState.Closed => none

/-- A sample connection ID. -/
def cidOne : ConnectionId := ⟨1⟩

/-- A second sample connection ID. -/
def cidTwo : ConnectionId := ⟨2⟩

/-- A sample application-kind connection error. -/
def errApp : Error := Error.with_default_fty ErrorKind.Application "bye"

/-- A second, distinct sample error. -/
def errOther : Error := Error.with_default_fty ErrorKind.ProtocolViolation "oops"

/-- A sample draining state owning one connection ID. -/
def drainingSample : DrainingConnection := ⟨[cidOne], errApp⟩

/-- A sample closing state owning one connection ID, with a retained
handshake context. -/
def closingSample : ClosingConnection :=
  ⟨errApp, [cidOne], some ClosingHandshakeScope.mk, none⟩

/-- A sample Active connection: two paths with application-data probe
timeouts 100 and 150, a salvageable handshake space, a discarded 1-RTT
space, and two registered local connection IDs. -/
def rawSample : RawConnection where
  datagrams := DatagramFlow.new 1024 1024
  flow_ctrl := ⟨none⟩
  streams := ⟨none⟩
  params := ⟨⟨0⟩, none⟩
  tls_session := ⟨false⟩
  notify := Notify.mk
  hs := ⟨false⟩
  data := ⟨true⟩
  join_handles := [⟨0⟩, ⟨1⟩, ⟨2⟩, ⟨3⟩]
  pathes := [⟨⟨fun _ => 100⟩⟩, ⟨⟨fun _ => 150⟩⟩]
  cid_registry := ⟨⟨[cidOne, cidTwo]⟩⟩
  error := ⟨none⟩

/-- The sample Active connection with both crypto spaces already
discarded. -/
def rawSampleDiscarded : RawConnection :=
  { rawSample with hs := ⟨true⟩, data := ⟨true⟩ }

/-- The closing state produced by should_enter_close on rawSample: the
error, the two owned IDs, the salvaged handshake context and no 1-RTT
context. -/
def closingAfterSample : ClosingConnection :=
  ClosingConnection.new errApp [cidOne, cidTwo] (some ClosingHandshakeScope.mk) none

/-- A sample raw datagram writer with ceiling 1024 and an empty queue. -/
def rawWriterSample : RawDatagramWriter := ⟨1024, []⟩

/-- A sample live datagram reader cell. -/
def readerCellSample : DatagramReader := Except.ok (RawDatagramReader.new 1024)

/-- The broadcast block leaves the crypto spaces untouched. -/
theorem broadcast_hs (r : RawConnection) (e : Error) :
    (r.broadcastConnError e).hs = r.hs := rfl

/-- The broadcast block leaves the data space untouched. -/
theorem broadcast_data (r : RawConnection) (e : Error) :
    (r.broadcastConnError e).data = r.data := rfl

/-- The broadcast block leaves the receive-task handles untouched. -/
theorem broadcast_join_handles (r : RawConnection) (e : Error) :
    (r.broadcastConnError e).join_handles = r.join_handles := rfl

/-- The broadcast block leaves the path set untouched. -/
theorem broadcast_pathes (r : RawConnection) (e : Error) :
    (r.broadcastConnError e).pathes = r.pathes := rfl

/-- The broadcast block leaves the CID registry untouched. -/
theorem broadcast_cid_registry (r : RawConnection) (e : Error) :
    (r.broadcastConnError e).cid_registry = r.cid_registry := rfl

/-- Unfolding of should_enter_close on an Active state whose path set has a
known maximal probe timeout. -/
theorem should_enter_close_raw_eq (r : RawConnection) (e : Error) (m : Duration)
    (hm : (r.pathes.map (fun path => path.cc.pto_time Epoch.Data)).max? = some m) :
    ConnState.should_enter_close (ConnState.Raw r) e
      = some
        (match r.hs.try_into_ok, r.data.try_into_ok with
         | none, none =>
           ConnState.Draining
             (DrainingConnection.new r.cid_registry.localCids.active_cids e)
         | hs, one_rtt =>
           ConnState.Closing
             (ClosingConnection.new e r.cid_registry.localCids.active_cids hs one_rtt),
         some (r.join_handles, m)) := by
  cases hhs : r.hs.try_into_ok <;> cases hdd : r.data.try_into_ok <;>
    simp only [ConnState.should_enter_close, RawConnection.broadcastConnError] <;>
    simp [hm, hhs, hdd]

/-- should_enter_close on an Active state with neither crypto context
salvageable goes straight to Draining. -/
theorem should_enter_close_raw_draining (r : RawConnection) (e : Error) (m : Duration)
    (hm : (r.pathes.map (fun path => path.cc.pto_time Epoch.Data)).max? = some m)
    (hhs : r.hs.try_into_ok = none) (hdd : r.data.try_into_ok = none) :
    ConnState.should_enter_close (ConnState.Raw r) e
      = some (ConnState.Draining
          (DrainingConnection.new r.cid_registry.localCids.active_cids e),
          some (r.join_handles, m)) := by
  rw [should_enter_close_raw_eq r e m hm, hhs, hdd]

/-- should_enter_close on an Active state with at least one salvageable
crypto context goes to Closing, retaining the salvaged contexts. -/
theorem should_enter_close_raw_closing (r : RawConnection) (e : Error) (m : Duration)
    (hm : (r.pathes.map (fun path => path.cc.pto_time Epoch.Data)).max? = some m)
    (h : ¬(r.hs.try_into_ok = none ∧ r.data.try_into_ok = none)) :
    ConnState.should_enter_close (ConnState.Raw r) e
      = some (ConnState.Closing
          (ClosingConnection.new e r.cid_registry.localCids.active_cids
            r.hs.try_into_ok r.data.try_into_ok),
          some (r.join_handles, m)) := by
  rw [should_enter_close_raw_eq r e m hm]
  cases hhs : r.hs.try_into_ok with
  | none =>
    cases hdd : r.data.try_into_ok with
    | none => exact absurd ⟨hhs, hdd⟩ h
    | some v => rfl
  | some u => cases hdd : r.data.try_into_ok <;> rfl

/-- should_enter_closing on an Active state with neither context
salvageable: the Draining branch drops the handles and starts draining with
the full budget `pto * 3`. -/
theorem should_enter_closing_raw_draining (r : RawConnection) (e : Error) (m : Duration)
    (hm : (r.pathes.map (fun path => path.cc.pto_time Epoch.Data)).max? = some m)
    (hhs : r.hs.try_into_ok = none) (hdd : r.data.try_into_ok = none) :
    ArcConnection.should_enter_closing (ConnState.Raw r) e
      = some (ConnState.Draining
          (DrainingConnection.new r.cid_registry.localCids.active_cids e),
          ClosingFollowUp.drainNow (m * 3)) := by
  simp [ArcConnection.should_enter_closing, ConnState.isRaw,
        should_enter_close_raw_draining r e m hm hhs hdd]

/-- should_enter_closing on an Active state with a salvageable context: the
Closing branch spawns the closing race with the computed pto. -/
theorem should_enter_closing_raw_closing (r : RawConnection) (e : Error) (m : Duration)
    (hm : (r.pathes.map (fun path => path.cc.pto_time Epoch.Data)).max? = some m)
    (h : ¬(r.hs.try_into_ok = none ∧ r.data.try_into_ok = none)) :
    ArcConnection.should_enter_closing (ConnState.Raw r) e
      = some (ConnState.Closing
          (ClosingConnection.new e r.cid_registry.localCids.active_cids
            r.hs.try_into_ok r.data.try_into_ok),
          ClosingFollowUp.closingRace m) := by
  simp [ArcConnection.should_enter_closing, ConnState.isRaw,
        should_enter_close_raw_closing r e m hm h]

/-- should_enter_close on a non-Active state restores the state unchanged
and returns nothing. -/
theorem should_enter_close_nonraw (s : ConnState) (e : Error) (h : s.isRaw = false) :
    ConnState.should_enter_close s e = some (s, none) := by
  cases s with
  | Raw r => simp [ConnState.isRaw] at h
  | Closing c => rfl
  | Draining d => rfl
  | Closed => rfl

/-- A close or transport-error event on a non-Active state is a no-op. -/
theorem closeEventStep_nonraw (s : ConnState) (ev : CloseEvent) (h : s.isRaw = false) :
    s.closeEventStep ev = some (s, ClosingFollowUp.nothing) := by
  cases ev with
  | appClose msg =>
    cases s with
    | Raw r => simp [ConnState.isRaw] at h
    | Closing c => rfl
    | Draining d => rfl
    | Closed => rfl
  | transportError e =>
    simp [ConnState.closeEventStep, ArcConnection.should_enter_closing, h]

/-- Any sequence of close/error events on a non-Active state leaves it
unchanged. -/
theorem runCloseEvents_nonraw (s : ConnState) (evs : List CloseEvent)
    (h : s.isRaw = false) :
    s.runCloseEvents evs = some s := by
  induction evs with
  | nil => rfl
  | cons ev evs ih =>
    simp [ConnState.runCloseEvents, closeEventStep_nonraw s ev h, ih]

/-- C1 (amended): each locally-owned connection ID is passed to the
router's remove exactly once, at the transition to Terminated, on every
path — Closing to Terminated via die, Draining to Terminated via die, and
Active directly to Terminated via noViablePath. After Terminated, a further
die call releases nothing but is a contract-violation panic (modelled as
`none`), not a no-op; a further noViablePath releases nothing. -/
theorem die_releases_cids_exactly_once :
    (∀ c : ClosingConnection,
       ConnState.die (ConnState.Closing c) = some (ConnState.Closed, c.local_cids))
  ∧ (∀ d : DrainingConnection,
       ConnState.die (ConnState.Draining d) = some (ConnState.Closed, d.local_cids))
  ∧ (∀ r : RawConnection,
       ConnState.no_vaiable_path (ConnState.Raw r)
         = (ConnState.Closed, r.cid_registry.localCids.active_cids))
  ∧ ConnState.die ConnState.Closed = none
  ∧ ConnState.no_vaiable_path ConnState.Closed = (ConnState.Closed, []) :=
  ⟨fun _ => rfl, fun _ => rfl, fun _ => rfl, rfl, rfl⟩

/-- C1 counterexample: the first die from Draining removes the owned ID and
leaves Terminated, but a second termination request is not a no-op — die on
the Terminated holder hits the `unreachable` arm and panics (`none`). -/
theorem die_after_terminated_panics :
    ConnState.die (ConnState.Draining drainingSample)
      = some (ConnState.Closed, [cidOne])
  ∧ ConnState.die ConnState.Closed = none :=
  ⟨rfl, rfl⟩

/-- C6 (amended): when the holder is not Active, noViablePath removes no
connection ID from the router and performs no broadcast, but it is not a
pure no-op on the holder: the `mem::replace` with Closed is kept, so the
previous Closing or Draining state (with its connection-ID set) is
discarded and the holder is left Terminated. -/
theorem noViablePath_nonactive (s : ConnState) (h : s.isRaw = false) :
    ConnState.no_vaiable_path s = (ConnState.Closed, []) := by
  cases s with
  | Raw r => simp [ConnState.isRaw] at h
  | Closing c => rfl
  | Draining d => rfl
  | Closed => rfl

/-- C6 witness: noViablePath on a concrete Draining state removes nothing
and leaves the holder Terminated. -/
theorem noViablePath_nonactive_witness :
    ConnState.no_vaiable_path (ConnState.Draining drainingSample)
      = (ConnState.Closed, []) :=
  noViablePath_nonactive (ConnState.Draining drainingSample) rfl

/-- C6 counterexample: on a concrete Closing state, noViablePath does not
leave the state value unchanged as claimed — it overwrites the holder with
Terminated (Closed), discarding the Closing state and its connection-ID
set (while indeed removing no ID from the router). -/
theorem noViablePath_overwrites_closing :
    ConnState.no_vaiable_path (ConnState.Closing closingSample)
      = (ConnState.Closed, [])
  ∧ ConnState.Closing closingSample ≠ ConnState.Closed :=
  ⟨rfl, fun h => ConnState.noConfusion h⟩

/-- C10: the public is_active predicate returns the negation of the
holder-contains-Raw test, exactly as the source writes it: a Raw (freshly
constructed active) connection reports false, and Closing, Draining and
Terminated report true. -/
theorem is_active_negates_raw :
    (∀ s : ConnState, ArcConnection.is_active s = !s.isRaw)
  ∧ (∀ r : RawConnection, ArcConnection.is_active (ConnState.Raw r) = false)
  ∧ (∀ c : ClosingConnection, ArcConnection.is_active (ConnState.Closing c) = true)
  ∧ (∀ d : DrainingConnection, ArcConnection.is_active (ConnState.Draining d) = true)
  ∧ ArcConnection.is_active ConnState.Closed = true :=
  ⟨fun _ => rfl, fun _ => rfl, fun _ => rfl, fun _ => rfl, rfl⟩

/-- C2: on an Active connection, should_enter_close decides the next state
as follows: if neither the handshake-space nor the 1-RTT data-space crypto
context could be salvaged, the state becomes Draining directly (Closing is
skipped); otherwise the state becomes Closing, retaining whichever
salvageable contexts exist. -/
theorem begin_close_next_state_decision (r : RawConnection) (e : Error) (m : Duration)
    (hm : (r.pathes.map (fun path => path.cc.pto_time Epoch.Data)).max? = some m) :
    (r.hs.try_into_ok = none → r.data.try_into_ok = none →
      ConnState.should_enter_close (ConnState.Raw r) e
        = some (ConnState.Draining
            (DrainingConnection.new r.cid_registry.localCids.active_cids e),
            some (r.join_handles, m)))
  ∧ (r.hs.try_into_ok ≠ none ∨ r.data.try_into_ok ≠ none →
      ConnState.should_enter_close (ConnState.Raw r) e
        = some (ConnState.Closing
            (ClosingConnection.new e r.cid_registry.localCids.active_cids
              r.hs.try_into_ok r.data.try_into_ok),
            some (r.join_handles, m))) := by
  constructor
  · intro hhs hdd
    exact should_enter_close_raw_draining r e m hm hhs hdd
  · intro h
    refine should_enter_close_raw_closing r e m hm ?_
    rintro ⟨hhs, hdd⟩
    rcases h with h | h
    · exact h hhs
    · exact h hdd

/-- C2 witness: with both spaces discarded the sample connection enters
Draining directly; with a salvageable handshake space it enters Closing
and retains that context. -/
theorem begin_close_next_state_decision_witness :
    ConnState.should_enter_close (ConnState.Raw rawSampleDiscarded) errApp
      = some (ConnState.Draining (DrainingConnection.new [cidOne, cidTwo] errApp),
          some (rawSampleDiscarded.join_handles, 150))
  ∧ ConnState.should_enter_close (ConnState.Raw rawSample) errApp
      = some (ConnState.Closing closingAfterSample,
          some (rawSample.join_handles, 150)) :=
  ⟨(begin_close_next_state_decision rawSampleDiscarded errApp 150 rfl).1 rfl rfl,
   (begin_close_next_state_decision rawSample errApp 150 rfl).2
     (Or.inl (by decide))⟩

/-- C3: the timeout returned by should_enter_close is the maximum of the
per-path application-data probe-timeout estimates; the closing-wait
deadline before forced termination is three times that maximum; and when
close-confirmation arrives at elapsed time e below the deadline, the
subsequent draining budget is the remaining 3 times max minus e. -/
theorem closing_timeout_is_max_pto (r : RawConnection) (e : Error) (m : Duration)
    (hm : (r.pathes.map (fun path => path.cc.pto_time Epoch.Data)).max? = some m) :
    (∃ next, ConnState.should_enter_close (ConnState.Raw r) e
        = some (next, some (r.join_handles, m)))
  ∧ m ∈ r.pathes.map (fun path => path.cc.pto_time Epoch.Data)
  ∧ (∀ t ∈ r.pathes.map (fun path => path.cc.pto_time Epoch.Data), t ≤ m)
  ∧ closing_wait_deadline m = 3 * m
  ∧ closing_race m none = RaceOutcome.dieNow
  ∧ (∀ elapsed, elapsed < 3 * m →
      closing_race m (some elapsed)
        = RaceOutcome.drainingCont (3 * m - elapsed)) := by
  refine ⟨⟨_, should_enter_close_raw_eq r e m hm⟩, ?_, ?_, ?_, rfl, ?_⟩
  · exact List.max?_mem (fun a b => max_choice a b) hm
  · intro t ht
    exact (List.max?_le_iff (fun a b c => Nat.max_le) hm).mp (le_refl m) t ht
  · simp [closing_wait_deadline, Nat.mul_comm]
  · intro elapsed h
    have h' : elapsed < m * 3 := by rw [Nat.mul_comm]; exact h
    simp only [closing_race, closing_wait_deadline, if_pos h']
    rw [Nat.mul_comm]

/-- C3 witness: on the sample connection with paths reporting 100 and 150,
the returned timeout is the maximum 150, the closing-wait deadline is 450,
and a close-confirmation at elapsed time 100 continues into draining with
the remaining 350. -/
theorem closing_timeout_is_max_pto_witness :
    (∃ next, ConnState.should_enter_close (ConnState.Raw rawSample) errApp
        = some (next, some (rawSample.join_handles, 150)))
  ∧ closing_wait_deadline 150 = 450
  ∧ closing_race 150 (some 100) = RaceOutcome.drainingCont 350 := by
  have h := closing_timeout_is_max_pto rawSample errApp 150 rfl
  exact ⟨h.1, h.2.2.2.1, h.2.2.2.2.2 100 (by decide)⟩

/-- C4: close is idempotent with first-error-wins: on a state that is
already Closing, Draining or Terminated, should_enter_close returns
nothing and restores the state value unchanged (hence the stored
connection error is unchanged too), a close call or transport-error event
is a no-op, and a whole sequence of such events leaves the state
unchanged; from an Active state (with a nonempty path set) the first event
performs a transition to a non-Active state, after which the earlier parts
apply to every later event. -/
theorem close_idempotent_first_error_wins :
    (∀ (s : ConnState) (e : Error), s.isRaw = false →
      ConnState.should_enter_close s e = some (s, none))
  ∧ (∀ (s : ConnState) (ev : CloseEvent), s.isRaw = false →
      s.closeEventStep ev = some (s, ClosingFollowUp.nothing))
  ∧ (∀ (s : ConnState) (evs : List CloseEvent), s.isRaw = false →
      s.runCloseEvents evs = some s)
  ∧ (∀ (r : RawConnection) (ev : CloseEvent) (m : Duration),
      (r.pathes.map (fun path => path.cc.pto_time Epoch.Data)).max? = some m →
      ∃ s' fu, ConnState.closeEventStep (ConnState.Raw r) ev = some (s', fu)
        ∧ s'.isRaw = false) := by
  refine ⟨should_enter_close_nonraw, closeEventStep_nonraw, runCloseEvents_nonraw, ?_⟩
  intro r ev m hm
  by_cases hc : r.hs.try_into_ok = none ∧ r.data.try_into_ok = none
  · cases ev with
    | appClose msg =>
      exact ⟨_, _,
        should_enter_closing_raw_draining
          { r with error := r.error.set_app_error (Error.with_default_fty ErrorKind.Application msg) }
          (Error.with_default_fty ErrorKind.Application msg) m hm hc.1 hc.2,
        rfl⟩
    | transportError e =>
      exact ⟨_, _, should_enter_closing_raw_draining r e m hm hc.1 hc.2, rfl⟩
  · cases ev with
    | appClose msg =>
      exact ⟨_, _,
        should_enter_closing_raw_closing
          { r with error := r.error.set_app_error (Error.with_default_fty ErrorKind.Application msg) }
          (Error.with_default_fty ErrorKind.Application msg) m hm hc,
        rfl⟩
    | transportError e =>
      exact ⟨_, _, should_enter_closing_raw_closing r e m hm hc, rfl⟩

/-- C4 witness: on a concrete Closing state a further close and a further
transport error are no-ops that keep the state (and so its stored error),
and from the concrete Active sample the first event does transition. -/
theorem close_idempotent_first_error_wins_witness :
    ConnState.should_enter_close (ConnState.Closing closingSample) errOther
      = some (ConnState.Closing closingSample, none)
  ∧ ConnState.closeEventStep (ConnState.Closing closingSample)
      (CloseEvent.appClose "again")
      = some (ConnState.Closing closingSample, ClosingFollowUp.nothing)
  ∧ ConnState.runCloseEvents (ConnState.Closing closingSample)
      [CloseEvent.appClose "x", CloseEvent.transportError errOther]
      = some (ConnState.Closing closingSample)
  ∧ (∃ s' fu, ConnState.closeEventStep (ConnState.Raw rawSample)
      (CloseEvent.appClose "bye") = some (s', fu) ∧ s'.isRaw = false) :=
  ⟨close_idempotent_first_error_wins.1 (ConnState.Closing closingSample) errOther rfl,
   close_idempotent_first_error_wins.2.1 (ConnState.Closing closingSample)
     (CloseEvent.appClose "again") rfl,
   close_idempotent_first_error_wins.2.2.1 (ConnState.Closing closingSample)
     [CloseEvent.appClose "x", CloseEvent.transportError errOther] rfl,
   close_idempotent_first_error_wins.2.2.2 rawSample
     (CloseEvent.appClose "bye") 150 rfl⟩

/-- C5: at the failing input the claim is contradicted by the code's own
assertion: the sample Active connection enters Closing and spawns the race
with pto 150; the peer's close confirmation arrives at elapsed time 100,
within the 450 deadline, so the race calls draining with the remaining 350
— but nothing has transitioned the holder from Closing to Draining, so the
assertion in ArcConnection::draining fails (a panic, modelled `none`)
instead of holding as the claim states. -/
theorem ccf_draining_assertion_fails :
    ArcConnection.should_enter_closing (ConnState.Raw rawSample) errApp
      = some (ConnState.Closing closingAfterSample, ClosingFollowUp.closingRace 150)
  ∧ closing_race 150 (some 100) = RaceOutcome.drainingCont 350
  ∧ ArcConnection.draining (ConnState.Closing closingAfterSample) 350 = none :=
  ⟨should_enter_closing_raw_closing rawSample errApp 150 rfl (by decide),
   by decide, rfl⟩

/-- C7 (spec-modelled: reader.rs and writer.rs are not under src/): after
on_conn_error with error e on a live datagram flow, every subsequent read
and write fails with exactly e, and a second on_conn_error with any other
error is a no-op leaving the stored error unchanged. -/
theorem datagram_flow_first_error_wins (rdr : RawDatagramReader)
    (wtr : RawDatagramWriter) (e e2 : Error) (b : Bytes) :
    DatagramReader.poll_read
        ((DatagramFlow.on_conn_error ⟨Except.ok rdr, Except.ok wtr⟩ e).reader)
      = Except.error e
  ∧ (DatagramWriter.send
        ((DatagramFlow.on_conn_error ⟨Except.ok rdr, Except.ok wtr⟩ e).writer) b).1
      = Except.error e
  ∧ DatagramFlow.on_conn_error
        (DatagramFlow.on_conn_error ⟨Except.ok rdr, Except.ok wtr⟩ e) e2
      = DatagramFlow.on_conn_error ⟨Except.ok rdr, Except.ok wtr⟩ e :=
  ⟨rfl, rfl, rfl⟩

/-- C8 (spec-modelled: writer.rs is not under src/): on a live datagram
flow, update_remote_max_datagram_frame_size fails with a
protocol-violation error and leaves the negotiated size unchanged when the
new size is smaller than the current value, and succeeds and updates the
writer's ceiling when the new size is equal or larger. -/
theorem datagram_size_monotonic (rd : DatagramReader) (w : RawDatagramWriter)
    (n : Nat) :
    (n < w.remote_max_datagram_frame_size →
      DatagramFlow.update_remote_max_datagram_frame_size ⟨rd, Except.ok w⟩ n
        = (Except.error datagramSizeShrinkError, ⟨rd, Except.ok w⟩))
  ∧ (w.remote_max_datagram_frame_size ≤ n →
      DatagramFlow.update_remote_max_datagram_frame_size ⟨rd, Except.ok w⟩ n
        = (Except.ok (), ⟨rd, Except.ok ⟨n, w.queue⟩⟩))
  ∧ datagramSizeShrinkError.kind = ErrorKind.ProtocolViolation := by
  refine ⟨?_, ?_, rfl⟩
  · intro h
    simp [DatagramFlow.update_remote_max_datagram_frame_size,
          DatagramWriter.update_remote_max_datagram_frame_size, h]
  · intro h
    simp [DatagramFlow.update_remote_max_datagram_frame_size,
          DatagramWriter.update_remote_max_datagram_frame_size, Nat.not_lt.mpr h]

/-- C8 witness: shrinking 1024 to 512 fails with the protocol violation
and keeps the value; growing 1024 to 2048 succeeds and updates the
ceiling. -/
theorem datagram_size_monotonic_witness :
    DatagramFlow.update_remote_max_datagram_frame_size
        ⟨readerCellSample, Except.ok rawWriterSample⟩ 512
      = (Except.error datagramSizeShrinkError,
         ⟨readerCellSample, Except.ok rawWriterSample⟩)
  ∧ DatagramFlow.update_remote_max_datagram_frame_size
        ⟨readerCellSample, Except.ok rawWriterSample⟩ 2048
      = (Except.ok (), ⟨readerCellSample, Except.ok ⟨2048, []⟩⟩) :=
  ⟨(datagram_size_monotonic readerCellSample rawWriterSample 512).1 (by decide),
   (datagram_size_monotonic readerCellSample rawWriterSample 2048).2.1 (by decide)⟩

/-- C9: every accessor operation — open_bi_stream, open_uni_stream,
accept_bi_stream, accept_uni_stream, datagram_reader, datagram_writer —
fails immediately on a Closing or Draining state, and the returned error is
exactly that state's stored connection error. -/
theorem accessors_fail_with_stored_error (c : ClosingConnection)
    (d : DrainingConnection) :
    ArcConnection.open_bi_stream_guard (ConnState.Closing c)
      = some (Except.error c.error)
  ∧ ArcConnection.open_bi_stream_guard (ConnState.Draining d)
      = some (Except.error d.error)
  ∧ ArcConnection.open_uni_stream_guard (ConnState.Closing c)
      = some (Except.error c.error)
  ∧ ArcConnection.open_uni_stream_guard (ConnState.Draining d)
      = some (Except.error d.error)
  ∧ ArcConnection.accept_bi_stream_guard (ConnState.Closing c)
      = some (Except.error c.error)
  ∧ ArcConnection.accept_bi_stream_guard (ConnState.Draining d)
      = some (Except.error d.error)
  ∧ ArcConnection.accept_uni_stream_guard (ConnState.Closing c)
      = some (Except.error c.error)
  ∧ ArcConnection.accept_uni_stream_guard (ConnState.Draining d)
      = some (Except.error d.error)
  ∧ ArcConnection.datagram_reader (ConnState.Closing c)
      = some (Except.error c.error)
  ∧ ArcConnection.datagram_reader (ConnState.Draining d)
      = some (Except.error d.error)
  ∧ ArcConnection.datagram_writer_guard (ConnState.Closing c)
      = some (Except.error c.error)
  ∧ ArcConnection.datagram_writer_guard (ConnState.Draining d)
      = some (Except.error d.error)
  ∧ (ConnState.Closing c).storedError = some c.error
  ∧ (ConnState.Draining d).storedError = some d.error :=
  ⟨rfl, rfl, rfl, rfl, rfl, rfl, rfl, rfl, rfl, rfl, rfl, rfl, rfl, rfl⟩

end GmQuic
